import Mathlib

/-!
Verification of the request-handling core of the PostgreSQL MCP server
(src/main.py): query validation, result shaping, configuration resolution
and catalog introspection, embedded shallowly.

Database effects are made explicit: each operation takes the database as an
oracle function and returns, besides its result, the list of statements it
sent to the database.  Exceptions raised by the Python code are modelled by
the Except monad; a value returned normally is wrapped in Except.ok.
-/

deriving instance DecidableEq for Except

namespace PgMcp

/-- A value appearing in a result row.  The Python driver returns rows as
dictionaries from column names to heterogeneous values; the claims only
depend on integer and string values and on the distinction between them. -/
inductive Value where
  | null
  | int (n : Int)
  | str (s : String)
  | bool (b : Bool)
deriving DecidableEq, Repr

/-- A result row: psycopg's dict_row, a mapping from column names to values
in column order (Python dicts preserve insertion order). -/
abbrev Row := List (String × Value)

/-- The keys of a row in order, as Python dict.keys() returns them. -/
def rowKeys (r : Row) : List String := r.map Prod.fst

/-- Python dictionary subscription d[k]: the value under the first matching
key, or a KeyError (modelled as an Except error) when the key is absent. -/
def dictGet (r : Row) (k : String) : Except String Value :=
  match List.lookup k r with
  | some v => Except.ok v
  | none => Except.error ("KeyError: " ++ k)

/-- Python str.strip(): remove whitespace from both ends.  Only the ASCII
whitespace characters recognised by Char.isWhitespace are modelled; the
queries in the claims contain no exotic whitespace. -/
def pyStrip (s : String) : String :=
  String.mk (((s.data.dropWhile Char.isWhitespace).reverse.dropWhile Char.isWhitespace).reverse)

/-- Python str.upper() restricted to ASCII, which covers every string the
validator compares against. -/
def pyUpper (s : String) : String :=
  String.mk (s.data.map Char.toUpper)

/-- Python str.startswith(p). -/
def pyStartsWith (s p : String) : Bool :=
  p.data.isPrefixOf s.data

/-- The leading whitespace-delimited token of a string after trimming.
Used only to state claims phrased in terms of the leading token. -/
def leadingToken (s : String) : String :=
  String.mk ((pyStrip s).data.takeWhile (fun c => !c.isWhitespace))

/-- Result shape of execute_query (src/main.py lines 218-236): either the
rejection dictionary (error, rows, row_count) or the success dictionary
(rows, row_count, columns). -/
inductive ExecuteQueryResult where
  | rejected (error : String) (rows : List Row) (row_count : Nat)
  | success (rows : List Row) (row_count : Nat) (columns : List String)
deriving DecidableEq, Repr

/-- The columns field of a successful execute_query result (src/main.py
line 235): list(rows[0].keys()) if rows else []. -/
def columnsFromRows (rows : List Row) : List String :=
  match rows with
  | [] => []
  | r :: _ => rowKeys r

/-- execute_query (src/main.py lines 203-239).  The database oracle maps the
executed statement to its fetched rows or to a raised exception.  The second
component of the result records, in order, the statements sent to the
database. -/
def execute_query (query : String) (db : String → Except String (List Row)) :
    Except String ExecuteQueryResult × List String :=
  let query_upper := pyUpper (pyStrip query)
  if ["SELECT", "WITH", "SHOW"].any (fun p => pyStartsWith query_upper p) then
    match db query with
    | Except.ok rows =>
        (Except.ok (ExecuteQueryResult.success rows rows.length
          (columnsFromRows rows)), [query])
    | Except.error e => (Except.error e, [query])
  else
    (Except.ok (ExecuteQueryResult.rejected
      "Only SELECT, WITH, and SHOW queries are allowed" [] 0), [])

/-- Result shape of get_table_schema (src/main.py lines 186-197): the
not-found dictionary (error, table_name, columns) or the success dictionary
(table_name, columns, column_count). -/
inductive TableSchemaResult where
  | notFound (error : String) (table_name : String) (columns : List Row)
  | found (table_name : String) (columns : List Row) (column_count : Nat)
deriving DecidableEq, Repr

/-- get_table_schema (src/main.py lines 154-200).  The catalog query is
parameterized by the table name, so the oracle maps the table name to the
fetched column rows.  The Python truthiness test `if not columns` on a list
is emptiness. -/
def get_table_schema (table_name : String)
    (db : String → Except String (List Row)) : Except String TableSchemaResult :=
  match db table_name with
  | Except.error e => Except.error e
  | Except.ok columns =>
    if columns.isEmpty then
      Except.ok (TableSchemaResult.notFound
        ("Table '" ++ table_name ++ "' not found") table_name [])
    else
      Except.ok (TableSchemaResult.found table_name columns columns.length)

/-- Result shape of get_table_stats (src/main.py lines 282-288). -/
structure TableStats where
  table_name : String
  row_count : Value
  total_size : Value
  table_size : Value
  indexes_size : Value
deriving DecidableEq, Repr

/-- get_table_stats (src/main.py lines 242-291).  Each cursor.fetchone() is
an oracle from the table name to an optional row.  Python's conditional
expressions `x["k"] if x else d` test dict truthiness: None and the empty
dict both fall back to the default (0 for the row count, "Unknown" for the
sizes); a missing key raises KeyError, modelled as Except.error. -/
def get_table_stats (table_name : String)
    (countQuery sizeQuery : String → Except String (Option Row)) :
    Except String TableStats :=
  match countQuery table_name with
  | Except.error e => Except.error e
  | Except.ok count_result =>
    let row_countE :=
      match count_result with
      | some r => if r.isEmpty then Except.ok (Value.int 0) else dictGet r "count"
      | none => Except.ok (Value.int 0)
    match row_countE with
    | Except.error e => Except.error e
    | Except.ok row_count =>
      match sizeQuery table_name with
      | Except.error e => Except.error e
      | Except.ok size_result =>
        match size_result with
        | none =>
          Except.ok ⟨table_name, row_count,
            Value.str "Unknown", Value.str "Unknown", Value.str "Unknown"⟩
        | some r =>
          if r.isEmpty then
            Except.ok ⟨table_name, row_count,
              Value.str "Unknown", Value.str "Unknown", Value.str "Unknown"⟩
          else
            match dictGet r "total_size", dictGet r "table_size",
                dictGet r "indexes_size" with
            | Except.ok t, Except.ok tb, Except.ok ix =>
                Except.ok ⟨table_name, row_count, t, tb, ix⟩
            | Except.error e, _, _ => Except.error e
            | _, Except.error e, _ => Except.error e
            | _, _, Except.error e => Except.error e

/-- Fuel-indexed scan for Python str.replace: at each position, if the
pattern begins there, emit the replacement and skip the pattern, else copy
one character.  Every step consumes at least one character, so fuel equal to
the input length never runs out. -/
def replaceAllAux (pat rep : List Char) : Nat → List Char → List Char
  | _, [] => []
  | 0, l => l
  | fuel + 1, c :: cs =>
    if pat ≠ [] ∧ pat <+: (c :: cs) then
      rep ++ replaceAllAux pat rep fuel (cs.drop (pat.length - 1))
    else
      c :: replaceAllAux pat rep fuel cs

/-- Python str.replace(pat, rep): replace every non-overlapping occurrence
of pat, scanning left to right.  The empty pattern (which Python treats
specially and which never occurs in the source) is left as the identity. -/
def replaceAll (pat rep l : List Char) : List Char :=
  replaceAllAux pat rep l.length l

/-- The SQLAlchemy-specific driver decoration removed at src/main.py line 70. -/
def sqlalchemyDecoration : String := "postgresql+psycopg://"

/-- The canonical scheme substituted for the decoration at src/main.py line 70. -/
def canonicalScheme : String := "postgresql://"

/-- The transformation applied to a supplied DATABASE_URL (src/main.py
line 70): Python str.replace of the decoration by the canonical scheme. -/
def stripSqlalchemyDecoration (url : String) : String :=
  String.mk (replaceAll sqlalchemyDecoration.data canonicalScheme.data url.data)

/-- The relevant environment variables, each None when unset. -/
structure Env where
  DATABASE_URL : Option String
  DATABASE_HOST : Option String
  DATABASE_USER : Option String
  DATABASE_PASSWORD : Option String
  DATABASE_PORT : Option String
  DATABASE_NAME : Option String
deriving DecidableEq, Repr

/-- Python truthiness test `not x` for an optional string: true when the
variable is unset or set to the empty string. -/
def pyFalsyOpt : Option String → Bool
  | none => true
  | some s => s.isEmpty

/-- The ValueError message raised at src/main.py lines 60-62. -/
def passwordRequiredMessage : String :=
  "DATABASE_PASSWORD is required. Set DATABASE_PASSWORD or DATABASE_URL in .env file"

/-- Outcome of connection-target resolution: the ValueError raised before
any connection attempt, or the URL handed to psycopg. -/
inductive ResolvedTarget where
  | configError (message : String)
  | url (database_url : String)
deriving DecidableEq, Repr

/-- Connection-target resolution in database_lifespan (src/main.py lines
49-70): use DATABASE_URL when truthy (stripping the SQLAlchemy decoration),
otherwise compose the URL from the discrete variables with their defaults,
raising ValueError when the password is unset or empty. -/
def resolve_database_url (env : Env) : ResolvedTarget :=
  let database_url := env.DATABASE_URL
  if pyFalsyOpt database_url then
    let db_host := env.DATABASE_HOST.getD "localhost"
    let db_user := env.DATABASE_USER.getD "postgres"
    let db_password := env.DATABASE_PASSWORD.getD ""
    let db_port := env.DATABASE_PORT.getD "5432"
    let db_name := env.DATABASE_NAME.getD "postgres"
    if db_password.isEmpty then
      ResolvedTarget.configError passwordRequiredMessage
    else
      ResolvedTarget.url ("postgresql://" ++ db_user ++ ":" ++ db_password ++ "@"
        ++ db_host ++ ":" ++ db_port ++ "/" ++ db_name)
  else
    ResolvedTarget.url (stripSqlalchemyDecoration (database_url.getD ""))

/-- database_lifespan (src/main.py lines 45-95) up to the connection
attempt: resolution runs first; the ValueError propagates as Except.error
with no connection attempt; otherwise psycopg.AsyncConnection.connect is
invoked on the resolved URL.  The second component records the URLs passed
to connect. -/
def database_lifespan (env : Env) (connect : String → Except String Unit) :
    Except String Unit × List String :=
  match resolve_database_url env with
  | ResolvedTarget.configError msg => (Except.error msg, [])
  | ResolvedTarget.url u => (connect u, [u])

/-- Structural lexicographic comparison of character lists by code point:
the order PostgreSQL's ORDER BY applies to table names.  Written as a
boolean recursion so that it evaluates inside the kernel. -/
def lexLe : List Char → List Char → Bool
  | [], _ => true
  | _ :: _, [] => false
  | a :: as, b :: bs => if a = b then lexLe as bs else decide (a < b)

/-- A row of information_schema.tables, the catalog state list_tables reads. -/
structure CatalogTable where
  table_schema : String
  table_name : String
  table_type : String
deriving DecidableEq, Repr

/-- Comparison by table name, the ORDER BY key of the list_tables query,
expressed through the computable comparison lexLe (proved below to agree
with the linear order on strings). -/
def tableNameLe (a b : CatalogTable) : Prop :=
  lexLe a.table_name.data b.table_name.data = true

instance : DecidableRel tableNameLe := fun a b =>
  inferInstanceAs (Decidable (lexLe a.table_name.data b.table_name.data = true))

/-- Shallow embedding of the SQL statement in list_tables (src/main.py
lines 136-141): PostgreSQL filters information_schema.tables to
table_schema = 'public', orders the rows by table_name ascending, and
projects (table_name, table_type). -/
def listTablesQuery (catalog : List CatalogTable) : List (String × String) :=
  (List.insertionSort tableNameLe
    (catalog.filter (fun t => t.table_schema == "public"))).map
    (fun t => (t.table_name, t.table_type))

/-- Result shape of list_tables (src/main.py line 148). -/
structure ListTablesResult where
  tables : List (String × String)
  count : Nat
deriving DecidableEq, Repr

/-- list_tables (src/main.py lines 127-151): wrap the fetched rows together
with their number. -/
def list_tables (catalog : List CatalogTable) : ListTablesResult :=
  let tables := listTablesQuery catalog
  { tables := tables, count := tables.length }

/-! ### General lemmas about the embedded helpers -/

/-- lexLe agrees with the lexicographic strict order on character lists. -/
theorem lexLe_iff_not_lex : ∀ l₁ l₂ : List Char,
    lexLe l₁ l₂ = true ↔ ¬ List.Lex (fun a b : Char => a < b) l₂ l₁ := by
  intro l₁
  induction l₁ with
  | nil =>
    intro l₂
    simp only [lexLe]
    constructor
    · intro _ hlex
      cases hlex
    · intro _
      trivial
  | cons a as ih =>
    intro l₂
    cases l₂ with
    | nil =>
      simp only [lexLe]
      constructor
      · intro h
        cases h
      · intro h
        exact absurd (List.Lex.nil) h
    | cons b bs =>
      simp only [lexLe]
      by_cases hab : a = b
      · subst hab
        rw [if_pos rfl, ih bs]
        constructor
        · intro h hlex
          cases hlex with
          | cons h2 => exact h h2
          | rel h2 => exact absurd h2 (lt_irrefl a)
        · intro h h2
          exact h (List.Lex.cons h2)
      · rw [if_neg hab]
        constructor
        · intro h hlex
          have hlt : a < b := of_decide_eq_true h
          cases hlex with
          | cons _ => exact hab rfl
          | rel h2 => exact absurd h2 (lt_asymm hlt)
        · intro h
          have hba : ¬ b < a := fun hba => h (List.Lex.rel hba)
          have : a < b := lt_of_le_of_ne (le_of_not_lt hba) hab
          exact decide_eq_true this

/-- lexLe on the character data decides the linear order on strings. -/
theorem lexLe_iff_le (s₁ s₂ : String) : lexLe s₁.data s₂.data = true ↔ s₁ ≤ s₂ := by
  rw [String.le_iff_toList_le, ← not_lt]
  have h := lexLe_iff_not_lex s₁.data s₂.data
  constructor
  · intro hl hlt
    exact h.mp hl hlt
  · intro hnl
    exact h.mpr fun hlex => hnl hlex

instance : IsTotal CatalogTable tableNameLe :=
  ⟨fun a b => by
    rcases le_total a.table_name b.table_name with h | h
    · exact Or.inl ((lexLe_iff_le _ _).mpr h)
    · exact Or.inr ((lexLe_iff_le _ _).mpr h)⟩

instance : IsTrans CatalogTable tableNameLe :=
  ⟨fun _ _ _ hab hbc =>
    (lexLe_iff_le _ _).mpr
      (le_trans ((lexLe_iff_le _ _).mp hab) ((lexLe_iff_le _ _).mp hbc))⟩

/-- replaceAllAux leaves a list without any occurrence of the pattern
unchanged. -/
theorem replaceAllAux_no_occurrence (pat rep : List Char) :
    ∀ (fuel : Nat) (l : List Char), l.length ≤ fuel → ¬ pat <:+: l →
      replaceAllAux pat rep fuel l = l := by
  intro fuel
  induction fuel with
  | zero =>
    intro l hlen _
    cases l with
    | nil => rfl
    | cons c cs => exact absurd hlen (by simp)
  | succ f ih =>
    intro l hlen hocc
    cases l with
    | nil => rfl
    | cons c cs =>
      have hcond : ¬ (pat ≠ [] ∧ pat <+: (c :: cs)) := by
        rintro ⟨-, t, ht⟩
        exact hocc ⟨[], t, by simpa using ht⟩
      rw [replaceAllAux, if_neg hcond]
      have : replaceAllAux pat rep f cs = cs :=
        ih cs (by simpa using Nat.le_of_succ_le_succ (by simpa using hlen))
          (fun h => hocc (List.infix_cons h))
      rw [this]

/-- replaceAll leaves a list without any occurrence of the pattern
unchanged. -/
theorem replaceAll_no_occurrence (pat rep l : List Char) (h : ¬ pat <:+: l) :
    replaceAll pat rep l = l :=
  replaceAllAux_no_occurrence pat rep l.length l le_rfl h

/-- replaceAll on a list starting with the pattern, whose remainder is free
of the pattern, rewrites exactly that leading occurrence. -/
theorem replaceAll_head_match (pat rep rest : List Char) (hne : pat ≠ [])
    (hclean : ¬ pat <:+: rest) :
    replaceAll pat rep (pat ++ rest) = rep ++ rest := by
  cases pat with
  | nil => exact absurd rfl hne
  | cons p ps =>
    have hpre : (p :: ps) <+: ((p :: ps) ++ rest) := List.prefix_append _ _
    have hlen : ((p :: ps) ++ rest).length = (ps ++ rest).length + 1 := by simp
    rw [replaceAll, hlen]
    show replaceAllAux (p :: ps) rep ((ps ++ rest).length + 1) (p :: (ps ++ rest))
      = rep ++ rest
    rw [replaceAllAux, if_pos ⟨List.cons_ne_nil p ps, hpre⟩]
    have hdrop : (ps ++ rest).drop ((p :: ps).length - 1) = rest := by
      simp only [List.length_cons, Nat.add_sub_cancel]
      exact List.drop_left ps rest
    rw [hdrop]
    congr 1
    exact replaceAllAux_no_occurrence (p :: ps) rep _ rest (by simp) hclean

/-- The statements execute_query sends to the database: exactly the original
query string when the prefix test accepts, nothing when it rejects. -/
theorem execute_query_snd_eq (q : String) (db : String → Except String (List Row)) :
    (execute_query q db).snd
      = if (pyStartsWith (pyUpper (pyStrip q)) "SELECT"
            || pyStartsWith (pyUpper (pyStrip q)) "WITH"
            || pyStartsWith (pyUpper (pyStrip q)) "SHOW") then [q] else [] := by
  simp only [execute_query, List.any_cons, List.any_nil, Bool.or_false, Bool.or_assoc]
  split
  · cases db q <;> rfl
  · rfl

/-! ### The claims -/

/-- C1 counterexample: the query SHOWER has leading token SHOWER, which is
none of SELECT, WITH, SHOW, yet execute_query sends it to the database and
returns a success envelope, not the rejection envelope. -/
theorem execute_query_token_claim_counterexample :
    pyUpper (leadingToken "SHOWER") ≠ "SELECT" ∧
    pyUpper (leadingToken "SHOWER") ≠ "WITH" ∧
    pyUpper (leadingToken "SHOWER") ≠ "SHOW" ∧
    execute_query "SHOWER" (fun _ => Except.ok [])
      = (Except.ok (ExecuteQueryResult.success [] 0 []), ["SHOWER"]) := by
  decide

/-- C1 (amended): for every query whose trimmed, uppercased text does not
begin with the character sequence SELECT, WITH, or SHOW, execute_query
returns the rejection envelope (error message, empty rows, zero row_count)
as a normal result, and issues no database call. -/
theorem execute_query_rejects_nonreadonly (q : String)
    (db : String → Except String (List Row))
    (h : ¬ (pyStartsWith (pyUpper (pyStrip q)) "SELECT" = true ∨
            pyStartsWith (pyUpper (pyStrip q)) "WITH" = true ∨
            pyStartsWith (pyUpper (pyStrip q)) "SHOW" = true)) :
    execute_query q db
      = (Except.ok (ExecuteQueryResult.rejected
          "Only SELECT, WITH, and SHOW queries are allowed" [] 0), []) := by
  have hc : (["SELECT", "WITH", "SHOW"].any
      (fun p => pyStartsWith (pyUpper (pyStrip q)) p)) = false := by
    simp only [List.any_cons, List.any_nil, Bool.or_false, Bool.or_eq_false_iff]
    refine ⟨?_, ?_, ?_⟩ <;> { rw [Bool.eq_false_iff]; intro hx; exact h (by tauto) }
  simp only [execute_query, hc]
  rfl

/-- C1 witness: a DELETE statement is rejected without a database call. -/
theorem execute_query_rejects_nonreadonly_witness :
    execute_query "DELETE FROM users" (fun _ => Except.ok [])
      = (Except.ok (ExecuteQueryResult.rejected
          "Only SELECT, WITH, and SHOW queries are allowed" [] 0), []) :=
  execute_query_rejects_nonreadonly "DELETE FROM users" (fun _ => Except.ok [])
    (by decide)

/-- C2: acceptance is a raw character-prefix comparison with no word
boundary: the database receives exactly the original query iff the trimmed
uppercased text begins with SELECT, WITH, or SHOW, and nothing otherwise;
in particular the queries SHOWER and WITHDRAWAL LIMIT 1, whose leading
tokens merely extend the keywords SHOW and WITH, are accepted and passed to
the database. -/
theorem execute_query_prefix_acceptance :
    (∀ (q : String) (db : String → Except String (List Row)),
      (execute_query q db).snd
        = if (pyStartsWith (pyUpper (pyStrip q)) "SELECT"
              || pyStartsWith (pyUpper (pyStrip q)) "WITH"
              || pyStartsWith (pyUpper (pyStrip q)) "SHOW") then [q] else []) ∧
    leadingToken "SHOWER" = "SHOWER" ∧
    (execute_query "SHOWER" (fun _ => Except.ok [])).snd = ["SHOWER"] ∧
    leadingToken "WITHDRAWAL LIMIT 1" = "WITHDRAWAL" ∧
    (execute_query "WITHDRAWAL LIMIT 1" (fun _ => Except.ok [])).snd
      = ["WITHDRAWAL LIMIT 1"] :=
  ⟨execute_query_snd_eq, by decide, by decide, by decide, by decide⟩

/-- C3 counterexample: a bare SELECT returns one zero-column row, for which
the code yields a nonempty row sequence with an empty columns list, so
columns empty does not imply rows empty. -/
theorem execute_query_columns_claim_counterexample :
    (execute_query "SELECT" (fun _ => Except.ok [[]])).fst
      = Except.ok (ExecuteQueryResult.success [[]] 1 []) ∧
    ([[]] : List Row) ≠ [] := by
  decide

/-- C3 (amended): every successful execute_query call returns row_count
equal to the length of the row sequence and columns equal to the first
row's keys when a row is present and empty when the row sequence is empty
(columns may also be empty for a nonempty row sequence whose first row has
no keys). -/
theorem execute_query_result_shape (q : String)
    (db : String → Except String (List Row)) (rows : List Row)
    (n : Nat) (cols : List String)
    (h : (execute_query q db).fst = Except.ok (ExecuteQueryResult.success rows n cols)) :
    n = rows.length ∧ cols = columnsFromRows rows := by
  simp only [execute_query] at h
  split at h
  · cases hdb : db q with
    | ok rows2 =>
      rw [hdb] at h
      simp only [Prod.fst] at h
      injection h with h1
      injection h1 with h2 h3 h4
      subst h2; subst h3; subst h4
      exact ⟨rfl, rfl⟩
    | error e => rw [hdb] at h; exact absurd h (by simp)
  · exact absurd h (by simp)

/-- C3 witness: a one-row result with one column. -/
theorem execute_query_result_shape_witness :
    1 = ([[("id", Value.int 7)]] : List Row).length ∧
    ["id"] = columnsFromRows [[("id", Value.int 7)]] :=
  execute_query_result_shape "SELECT id FROM users"
    (fun _ => Except.ok [[("id", Value.int 7)]])
    [[("id", Value.int 7)]] 1 ["id"] (by decide)

/-- C4: when the catalog column query returns zero rows, get_table_schema
returns the not-found-shaped result carrying an error message, the
requested table name and an empty columns sequence, without raising. -/
theorem get_table_schema_not_found (table_name : String)
    (db : String → Except String (List Row))
    (h : db table_name = Except.ok []) :
    get_table_schema table_name db
      = Except.ok (TableSchemaResult.notFound
          ("Table '" ++ table_name ++ "' not found") table_name []) := by
  simp [get_table_schema, h]

/-- C4 witness: a table absent from the catalog. -/
theorem get_table_schema_not_found_witness :
    get_table_schema "ghost" (fun _ => Except.ok [])
      = Except.ok (TableSchemaResult.notFound "Table 'ghost' not found" "ghost" []) :=
  (get_table_schema_not_found "ghost" (fun _ => Except.ok []) rfl).trans (by decide)

/-- C5: when DATABASE_URL is unset or empty and the password is unset or
empty, database_lifespan raises the configuration error before attempting
any connection: the result is the ValueError and the list of connection
attempts is empty. -/
theorem database_lifespan_missing_password_fails_fast (env : Env)
    (connect : String → Except String Unit)
    (hurl : pyFalsyOpt env.DATABASE_URL = true)
    (hpw : env.DATABASE_PASSWORD.getD "" = "") :
    database_lifespan env connect = (Except.error passwordRequiredMessage, []) := by
  have hie : (env.DATABASE_PASSWORD.getD "").isEmpty = true := by
    rw [String.isEmpty_iff]
    exact hpw
  have hres : resolve_database_url env = ResolvedTarget.configError passwordRequiredMessage := by
    simp [resolve_database_url, hurl, hie]
  simp [database_lifespan, hres]

/-- C5 witness: the wholly empty environment fails fast. -/
theorem database_lifespan_missing_password_fails_fast_witness :
    database_lifespan ⟨none, none, none, none, none, none⟩ (fun _ => Except.ok ())
      = (Except.error passwordRequiredMessage, []) :=
  database_lifespan_missing_password_fails_fast
    ⟨none, none, none, none, none, none⟩ (fun _ => Except.ok ()) (by decide) rfl

/-- C6: whenever DATABASE_URL is supplied (set and nonempty), the
configuration-error branch is unreachable regardless of the password
variables or of the URL content, and the process proceeds directly to one
connection attempt on the decoration-stripped URL. -/
theorem database_lifespan_url_skips_password_check (env : Env)
    (connect : String → Except String Unit) (u : String)
    (hu : env.DATABASE_URL = some u) (hne : u ≠ "") :
    resolve_database_url env = ResolvedTarget.url (stripSqlalchemyDecoration u) ∧
    database_lifespan env connect
      = (connect (stripSqlalchemyDecoration u), [stripSqlalchemyDecoration u]) := by
  have hie : u.isEmpty = false := by
    rw [← Bool.not_eq_true, String.isEmpty_iff]
    exact hne
  have hfalsy : pyFalsyOpt env.DATABASE_URL = false := by
    rw [hu]
    simpa [pyFalsyOpt] using hie
  have hres : resolve_database_url env = ResolvedTarget.url (stripSqlalchemyDecoration u) := by
    rw [resolve_database_url]
    rw [if_neg (by simp [hfalsy])]
    rw [hu]
    rfl
  exact ⟨hres, by simp [database_lifespan, hres]⟩

/-- C6 witness: a URL that itself contains no password still reaches the
connection attempt while every password variable is unset. -/
theorem database_lifespan_url_skips_password_check_witness :
    resolve_database_url ⟨some "postgresql://user@host/db", none, none, none, none, none⟩
      = ResolvedTarget.url (stripSqlalchemyDecoration "postgresql://user@host/db") ∧
    database_lifespan ⟨some "postgresql://user@host/db", none, none, none, none, none⟩
        (fun _ => Except.ok ())
      = (Except.ok (), [stripSqlalchemyDecoration "postgresql://user@host/db"]) :=
  database_lifespan_url_skips_password_check
    ⟨some "postgresql://user@host/db", none, none, none, none, none⟩
    (fun _ => Except.ok ()) "postgresql://user@host/db" rfl (by decide)

/-- C7 counterexample: for a connection string in which the decoration also
occurs past the leading scheme, the code rewrites that other component too,
so the result differs from the claimed prefix-stripped-only string. -/
theorem strip_decoration_claim_counterexample :
    stripSqlalchemyDecoration "postgresql+psycopg://u@h/db?x=postgresql+psycopg://"
      = "postgresql://u@h/db?x=postgresql://" ∧
    "postgresql://u@h/db?x=postgresql://"
      ≠ "postgresql://u@h/db?x=postgresql+psycopg://" := by
  decide

/-- C7 (amended): every occurrence of the decoration postgresql+psycopg://
in the supplied string is replaced by postgresql://; in particular, when the
string starts with the decoration and its remainder is free of it, the
result is the canonical scheme followed by the unchanged remainder, and a
string not containing the decoration at all is used unchanged. -/
theorem strip_decoration_replaces_occurrences :
    (∀ (url : String) (rest : List Char),
        url.data = sqlalchemyDecoration.data ++ rest →
        ¬ sqlalchemyDecoration.data <:+: rest →
        stripSqlalchemyDecoration url = String.mk (canonicalScheme.data ++ rest)) ∧
    (∀ url : String, ¬ sqlalchemyDecoration.data <:+: url.data →
        stripSqlalchemyDecoration url = url) := by
  constructor
  · intro url rest hsplit hclean
    rw [stripSqlalchemyDecoration, hsplit]
    rw [replaceAll_head_match sqlalchemyDecoration.data canonicalScheme.data rest
      (by decide) hclean]
  · intro url h
    rw [stripSqlalchemyDecoration, replaceAll_no_occurrence _ _ _ h]

/-- C7 witness: a decorated URL is canonicalized with the remainder intact,
and an undecorated URL passes through unchanged. -/
theorem strip_decoration_replaces_occurrences_witness :
    stripSqlalchemyDecoration "postgresql+psycopg://localhost:5432/mydb"
      = "postgresql://localhost:5432/mydb" ∧
    stripSqlalchemyDecoration "postgresql://localhost:5432/mydb"
      = "postgresql://localhost:5432/mydb" :=
  ⟨(strip_decoration_replaces_occurrences.1
      "postgresql+psycopg://localhost:5432/mydb" "localhost:5432/mydb".data
      (by decide) (by decide)).trans (by decide),
   strip_decoration_replaces_occurrences.2 "postgresql://localhost:5432/mydb"
     (by decide)⟩

/-- C8 counterexample: when the row-count sub-query yields no row, the
row_count field falls back to the integer 0, which is not an unknown
sentinel, while the size fields come from the size row. -/
theorem get_table_stats_count_fallback_counterexample :
    get_table_stats "users" (fun _ => Except.ok none)
        (fun _ => Except.ok (some [("total_size", Value.str "8192 bytes"),
          ("table_size", Value.str "0 bytes"), ("indexes_size", Value.str "8192 bytes")]))
      = Except.ok ⟨"users", Value.int 0, Value.str "8192 bytes", Value.str "0 bytes",
          Value.str "8192 bytes"⟩ ∧
    Value.int 0 ≠ Value.str "Unknown" ∧
    Value.int 0 ≠ Value.str "unknown" := by
  decide

/-- C8 (amended): if the size sub-query yields no row every size field falls
back to the string Unknown, and if the row-count sub-query yields no row the
row_count field falls back to the integer 0 (not an unknown sentinel);
neither case raises. -/
theorem get_table_stats_fallbacks :
    (∀ (tn : String) (cq sq : String → Except String (Option Row)) (c : Int),
        cq tn = Except.ok (some [("count", Value.int c)]) →
        sq tn = Except.ok none →
        get_table_stats tn cq sq
          = Except.ok ⟨tn, Value.int c, Value.str "Unknown", Value.str "Unknown",
              Value.str "Unknown"⟩) ∧
    (∀ (tn : String) (cq sq : String → Except String (Option Row)) (a b c : String),
        cq tn = Except.ok none →
        sq tn = Except.ok (some [("total_size", Value.str a), ("table_size", Value.str b),
          ("indexes_size", Value.str c)]) →
        get_table_stats tn cq sq
          = Except.ok ⟨tn, Value.int 0, Value.str a, Value.str b, Value.str c⟩) := by
  constructor
  · intro tn cq sq c hc hs
    simp [get_table_stats, hc, hs, dictGet]
  · intro tn cq sq a b c hc hs
    simp [get_table_stats, hc, hs, dictGet, List.lookup]

/-- C8 witness: both fallback directions at concrete oracles. -/
theorem get_table_stats_fallbacks_witness :
    get_table_stats "users" (fun _ => Except.ok (some [("count", Value.int 42)]))
        (fun _ => Except.ok none)
      = Except.ok ⟨"users", Value.int 42, Value.str "Unknown", Value.str "Unknown",
          Value.str "Unknown"⟩ ∧
    get_table_stats "users" (fun _ => Except.ok none)
        (fun _ => Except.ok (some [("total_size", Value.str "16 kB"),
          ("table_size", Value.str "8192 bytes"), ("indexes_size", Value.str "8192 bytes")]))
      = Except.ok ⟨"users", Value.int 0, Value.str "16 kB", Value.str "8192 bytes",
          Value.str "8192 bytes"⟩ :=
  ⟨get_table_stats_fallbacks.1 "users" _ _ 42 rfl rfl,
   get_table_stats_fallbacks.2 "users" _ _ "16 kB" "8192 bytes" "8192 bytes" rfl rfl⟩

/-- C9: every accepted query is executed as-is: the statement sent to the
database is the caller's original string, casing and whitespace preserved,
with nothing appended. -/
theorem execute_query_executes_verbatim (q : String)
    (db : String → Except String (List Row))
    (h : (pyStartsWith (pyUpper (pyStrip q)) "SELECT"
          || pyStartsWith (pyUpper (pyStrip q)) "WITH"
          || pyStartsWith (pyUpper (pyStrip q)) "SHOW") = true) :
    (execute_query q db).snd = [q] := by
  rw [execute_query_snd_eq, if_pos h]

/-- C9 witness: a lowercase query with surrounding whitespace is sent
verbatim. -/
theorem execute_query_executes_verbatim_witness :
    (execute_query "  select * FROM users  " (fun _ => Except.ok [])).snd
      = ["  select * FROM users  "] :=
  execute_query_executes_verbatim "  select * FROM users  "
    (fun _ => Except.ok []) (by decide)

/-- C10: for any catalog state, list_tables returns the public tables
sorted ascending by table name with count equal to the sequence length, and
the empty catalog yields the ordinary empty result (never a not-found
signal). -/
theorem list_tables_sorted_and_counted :
    (∀ catalog : List CatalogTable,
        List.Sorted (fun p q : String × String => p.1 ≤ q.1) (list_tables catalog).tables ∧
        (list_tables catalog).count = (list_tables catalog).tables.length) ∧
    list_tables [] = ⟨[], 0⟩ := by
  refine ⟨fun catalog => ⟨?_, rfl⟩, rfl⟩
  have hs : List.Sorted tableNameLe
      (List.insertionSort tableNameLe
        (catalog.filter (fun t => t.table_schema == "public"))) :=
    List.sorted_insertionSort tableNameLe _
  exact List.Pairwise.map _ (fun a b hab => (lexLe_iff_le _ _).mp hab) hs

end PgMcp
